import Mathlib

/-!
Verification of the blitter pipeline (`src/streaming/tasks.py` and
`src/streaming/genblit.py`).

The two Hadoop mapper functions and the `to_blit` transform are embedded as
pure Lean functions:

* `RunJpylyzer.mapper` (tasks.py lines 89-146): the probe stage.  The
  download-and-analyse body of the retry loop (lines 115-137) is abstracted
  as a function `attempt : Nat → AttemptResult` giving, for each value of the
  `retries` counter at loop entry, either the jpylyzer XML string produced
  (`ok`) or the description of the exception raised (`err`).
* `GenerateBlit.mapper` (tasks.py lines 179-218): the transform stage.  The
  body of the `try` block (lines 198-211: tab-split, XML re-parse,
  `genblit.to_blit`, serialisation) is abstracted as
  `tryBody : String → Except String (String × String)` returning either the
  `(id, blit_xml_out)` pair or the description of the exception raised.
* `to_blit` (genblit.py lines 13-160): embedded over a structure
  `JpylyzerProps` holding the jpylyzer property values the function reads.
  XML elements that `prop.find` may fail to locate (whereupon `.text` raises)
  are `Option` fields; numeric texts that the source parses with `int()` are
  carried as already-parsed integers, and the `"num/denom"` resolution
  fraction texts as already-split `Fraction` pairs, with the truncating
  `int(float(num)/float(denom))` modelled as exact truncated division.
  `to_blit` returns `none` exactly when the Python function raises.
-/

/-- Result of one iteration of the probe stage's download-and-analyse `try:`
block (tasks.py lines 115-143): `ok xml` when it sets `succeeded = True`
having produced the jpylyzer XML string, `err e` when it raises an exception
whose description is `e`. -/
inductive AttemptResult where
  | ok : String → AttemptResult
  | err : String → AttemptResult
  deriving DecidableEq

/-- Python `s.replace('\n', ' ').replace('\r', '')` (tasks.py lines 134 and
211), expressed per character: each `'\n'` becomes a space and each `'\r'`
is removed. -/
def stripNewlines (s : String) : String :=
  String.mk (s.data.filterMap fun c =>
    if c = '\r' then none else if c = '\n' then some ' ' else some c)

/-- The `while not succeeded and retries < 3` loop of tasks.py lines 109-143,
with `fuel = 3 - retries` making termination structural.  The loop state is
the pair `(out_key, jpylyzer_xml_out)`.  On an exception the counter is
incremented, the key is rewritten to `FAIL <retries> <line>` and the value to
`Error: <e>`; on success the value becomes the newline-stripped XML and the
loop exits at once, keeping whatever `out_key` currently holds. -/
def probeLoop (attempt : Nat → AttemptResult) (line : String) :
    Nat → Nat → String × String → String × String
  | 0, _, acc => acc
  | fuel + 1, retries, acc =>
    match attempt retries with
    | AttemptResult.ok xml => (acc.1, stripNewlines xml)
    | AttemptResult.err e =>
        probeLoop attempt line fuel (retries + 1)
          ("FAIL " ++ toString (retries + 1) ++ " " ++ line, "Error: " ++ e)

/-- `RunJpylyzer.mapper` (tasks.py lines 89-146): blank lines and the header
sentinel `ContentFileUID` yield nothing; every other line enters the retry
loop with `out_key = line` and yields exactly the final `(out_key,
jpylyzer_xml_out)` pair. -/
def RunJpylyzer.mapper (attempt : Nat → AttemptResult) (line : String) :
    List (String × String) :=
  if line = "" ∨ line = "ContentFileUID" then []
  else [probeLoop attempt line 3 0 (line, "")]

/-- `GenerateBlit.mapper` (tasks.py lines 179-218): blank lines and lines
starting with `FAIL ` yield nothing; otherwise the `try` body either
succeeds, yielding its `(id, blit_xml_out)` pair, or raises `e`, yielding
`("FAIL with: " ++ e, line)` with the raw input line as payload. -/
def GenerateBlit.mapper (tryBody : String → Except String (String × String))
    (line : String) : List (String × String) :=
  if line = "" then []
  else if "FAIL ".data.isPrefixOf line.data then []
  else
    match tryBody line with
    | Except.ok p => [p]
    | Except.error e => [("FAIL with: " ++ e, line)]

/-- A parsed `"num/denom"` resolution fraction text (genblit.py lines 81 and
83 split such a text on `/`). -/
structure Fraction where
  num : Nat
  denom : Nat
  deriving DecidableEq

/-- The jpylyzer property values read by `to_blit` (genblit.py lines 41-158).
`captureRes`/`displayRes` hold the `(horizontal, vertical)` pixels-per-inch
texts of the capture/display resolution boxes when those elements are
present; `xResolution`/`yResolution` the parsed generic TIFF resolution
fractions.  `levels`, `xsiz`, `ysiz`, `xTsiz`, `yTsiz` are the `int()`-parsed
codestream values; `precinctSizeX`/`precinctSizeY` the ordered lists of
per-resolution precinct size texts. -/
structure JpylyzerProps where
  width : String
  height : String
  captureRes : Option (String × String)
  displayRes : Option (String × String)
  xResolution : Option Fraction
  yResolution : Option Fraction
  nC : String
  bPCDepth : String
  transformation : String
  codeBlockWidth : String
  codeBlockHeight : String
  layers : String
  order : String
  levels : Nat
  xsiz : Int
  ysiz : Int
  xTsiz : Int
  yTsiz : Int
  precincts : String
  precinctSizeX : List String
  precinctSizeY : List String
  deriving DecidableEq

/-- One emitted `blit:jp2_precinct` element (genblit.py lines 146-151):
the levels listed in its `dwt_level` attribute, and the texts of its
`jp2_precinct_x` and `jp2_precinct_y` children. -/
structure PrecinctRun where
  levels : List Nat
  psx : String
  psy : String
  deriving DecidableEq

/-- The `dwt_level` attribute string of a run: the source accumulates
`",%i" % l` and strips the leading comma with `[1:]`, which renders the
accumulated levels joined by commas. -/
def PrecinctRun.dwt_level (r : PrecinctRun) : String :=
  String.intercalate "," (r.levels.map (fun n => toString n))

/-- The `for l in range(1, len(Psx) + 1)` loop of genblit.py lines 141-158,
iterating over the list of values of `l`.  The state is
`(currSize, dwt_levels, emitted runs)`; `i = len(Psx) - l`; when `i == 0` or
the size at index `i` differs from `currSize`, the accumulated levels are
emitted as a run carrying `currSize` for both the x and the y size, then
`currSize` and the accumulator are reset; in every iteration `l` is appended
to the accumulator afterwards. -/
def precinctLoopSt (psx : List String) :
    List Nat → String × List Nat × List PrecinctRun →
      String × List Nat × List PrecinctRun
  | [], st => st
  | l :: ls, (currSize, dwtLevels, out) =>
    if psx.length - l = 0 ∨ currSize ≠ psx.getD (psx.length - l) "" then
      precinctLoopSt psx ls (psx.getD (psx.length - l) "", [l],
        out ++ [{ levels := dwtLevels, psx := currSize, psy := currSize }])
    else
      precinctLoopSt psx ls (currSize, dwtLevels ++ [l], out)

/-- The precinct extraction of genblit.py lines 135-158, given the
`precinctSizeX` texts.  `currSize` is initialised from `Psx[6]`, which raises
`IndexError` (hence `none`) when fewer than 7 entries exist; otherwise the
loop runs for `l = 1 .. len(Psx)` and the emitted runs are returned. -/
def jp2Precincts (psx : List String) : Option (List PrecinctRun) :=
  if 6 < psx.length then
    some (precinctLoopSt psx (List.range' 1 psx.length)
      (psx.getD 6 "", [], [])).2.2
  else none

/-- Python's substring test `needle in hay` (genblit.py line 97) on the
character lists of the two strings. -/
def listContains (needle : List Char) : List Char → Bool
  | [] => needle.isEmpty
  | c :: t => needle.isPrefixOf (c :: t) || listContains needle t

/-- The resolution block of genblit.py lines 68-84, returning the final
`(blit:x text, blit:y text)` pair or `none` when the code raises.  The
capture box is tried first (`blit:x` ← horizontal, `blit:y` ← vertical),
then the display box, then the generic-fraction fallback.  In the fallback
the source computes `blit:y` from the X fraction and then — reusing the
still-bound `denom` because the Y denominator is unpacked into the
misspelled variable `demon` — computes `blit:x` as the Y numerator divided
by the X denominator.  A zero X denominator raises `ZeroDivisionError`. -/
def resolutionTexts (p : JpylyzerProps) : Option (String × String) :=
  match p.captureRes with
  | some hv => some hv
  | none =>
    match p.displayRes with
    | some hv => some hv
    | none =>
      match p.xResolution with
      | none => none
      | some fx =>
        if fx.denom = 0 then none
        else
          match p.yResolution with
          | none => none
          | some fy => some (toString (fy.num / fx.denom),
                             toString (fx.num / fx.denom))

/-- The fields of the emitted `blit` document that the claims concern,
in the order genblit.py creates them.  `resX`/`resY` are the texts of
`blit:x`/`blit:y` (the source binds the `blit:x` element to `resv` and
`blit:y` to `resh`); `tileDwtLevel` is the `dwt_level` attribute of the
`jp2_tile` element; `precinctRuns` is `none` when no `jp2_precincts` element
is created and `some runs` when one is. -/
structure BlitXml where
  width : String
  height : String
  resX : String
  resY : String
  channels : String
  bitsPerChannel : String
  compressionType : String
  cbx : String
  cby : String
  layers : String
  progressionOrder : String
  levels : Nat
  tileDwtLevel : String
  tileX : Int
  tileY : Int
  precinctRuns : Option (List PrecinctRun)
  deriving DecidableEq

/-- Element construction shared by the two exits of `to_blit`
(genblit.py lines 45-132): verbatim copies, the lossy/lossless
classification by substring test on the transformation text (line 97), the
tile clamping `if yTsiz > ysiz: yTsiz = ysiz` / `if xTsiz > xsiz: xTsiz =
xsiz` (lines 123-126), and the tile `dwt_level` attribute
`",".join(str(x) for x in range(1, levels + 1))` (line 128). -/
def mkBlit (p : JpylyzerProps) (rx ry : String)
    (runs : Option (List PrecinctRun)) : BlitXml :=
  { width := p.width
    height := p.height
    resX := rx
    resY := ry
    channels := p.nC
    bitsPerChannel := p.bPCDepth
    compressionType :=
      if listContains "irreversible".data p.transformation.data then
        "JPEG2000_Lossy"
      else "JPEG2000_Lossless"
    cbx := p.codeBlockWidth
    cby := p.codeBlockHeight
    layers := p.layers
    progressionOrder := p.order
    levels := p.levels
    tileDwtLevel :=
      String.intercalate "," ((List.range' 1 p.levels).map (fun n => toString n))
    tileX := if p.xTsiz > p.xsiz then p.xsiz else p.xTsiz
    tileY := if p.yTsiz > p.ysiz then p.ysiz else p.yTsiz
    precinctRuns := runs }

/-- `to_blit` (genblit.py lines 13-160): `none` when the Python function
raises (resolution block or precinct extraction), otherwise the emitted
document.  A `jp2_precincts` element is created only when the `precincts`
text equals `"yes"`; the `precinctSizeY` texts are read by line 138 but
never used afterwards. -/
def to_blit (p : JpylyzerProps) : Option BlitXml :=
  match resolutionTexts p with
  | none => none
  | some (rx, ry) =>
    if p.precincts = "yes" then
      match jp2Precincts p.precinctSizeX with
      | none => none
      | some runs => some (mkBlit p rx ry (some runs))
    else some (mkBlit p rx ry none)

/-- The concatenation of the level tags of a list of runs, in emission
order. -/
def runLevels : List PrecinctRun → List Nat
  | [] => []
  | r :: rs => r.levels ++ runLevels rs

/-- Unfolding lemma for one iteration of the retry loop. -/
theorem probeLoop_succ (attempt : Nat → AttemptResult) (line : String)
    (fuel retries : Nat) (acc : String × String) :
    probeLoop attempt line (fuel + 1) retries acc
      = match attempt retries with
        | AttemptResult.ok xml => (acc.1, stripNewlines xml)
        | AttemptResult.err e =>
            probeLoop attempt line fuel (retries + 1)
              ("FAIL " ++ toString (retries + 1) ++ " " ++ line,
               "Error: " ++ e) := rfl

/-- `runLevels` distributes over list append. -/
theorem runLevels_append (a b : List PrecinctRun) :
    runLevels (a ++ b) = runLevels a ++ runLevels b := by
  induction a with
  | nil => simp [runLevels]
  | cons r rs ih => simp [runLevels, ih]

/-- Running the precinct loop over a concatenated index list equals running
it over the two parts in sequence. -/
theorem precinctLoopSt_append (psx : List String) (l1 l2 : List Nat) :
    ∀ st, precinctLoopSt psx (l1 ++ l2) st
      = precinctLoopSt psx l2 (precinctLoopSt psx l1 st) := by
  induction l1 with
  | nil => intro st; rfl
  | cons l ls ih =>
    intro st
    obtain ⟨cs, acc, out⟩ := st
    simp only [List.cons_append, precinctLoopSt]
    split
    · exact ih _
    · exact ih _

/-- Loop invariant: the levels of the emitted runs followed by the pending
accumulator always equal the initial runs' levels, the initial accumulator
and the processed indices, in order. -/
theorem precinctLoopSt_flat (psx : List String) (ls : List Nat) :
    ∀ cs acc out,
      runLevels (precinctLoopSt psx ls (cs, acc, out)).2.2
          ++ (precinctLoopSt psx ls (cs, acc, out)).2.1
        = runLevels out ++ acc ++ ls := by
  induction ls with
  | nil => intro cs acc out; simp [precinctLoopSt]
  | cons l ls ih =>
    intro cs acc out
    simp only [precinctLoopSt]
    split
    · rw [ih]
      simp [runLevels_append, runLevels]
    · rw [ih]
      simp [List.append_assoc]

/-- Loop invariant: every emitted run carries the same text for its x and y
precinct sizes. -/
theorem precinctLoopSt_psy (psx : List String) (ls : List Nat) :
    ∀ cs acc out, (∀ r ∈ out, r.psy = r.psx) →
      ∀ r ∈ (precinctLoopSt psx ls (cs, acc, out)).2.2, r.psy = r.psx := by
  induction ls with
  | nil => intro cs acc out h; simpa [precinctLoopSt] using h
  | cons l ls ih =>
    intro cs acc out h
    simp only [precinctLoopSt]
    split
    · apply ih
      intro r hr
      rcases List.mem_append.mp hr with h1 | h2
      · exact h r h1
      · rw [List.mem_singleton.mp h2]
    · exact ih _ _ _ h

/-- When the precinct extraction succeeds, the concatenated level tags of
the emitted runs are exactly `1, 2, …, len(Psx) - 1` in order. -/
theorem jp2Precincts_levels (psx : List String) (runs : List PrecinctRun)
    (h : jp2Precincts psx = some runs) :
    runLevels runs = List.range' 1 (psx.length - 1) := by
  unfold jp2Precincts at h
  split at h
  · next hlen =>
    injection h with h
    subst h
    obtain ⟨m, hm⟩ : ∃ m, psx.length = m + 1 := ⟨psx.length - 1, by omega⟩
    rw [hm, List.range'_concat, precinctLoopSt_append]
    have hinv := precinctLoopSt_flat psx (List.range' 1 m) (psx.getD 6 "") [] []
    rcases hstate : precinctLoopSt psx (List.range' 1 m) (psx.getD 6 "", [], [])
      with ⟨cs1, acc1, out1⟩
    rw [hstate] at hinv
    simp only [runLevels] at hinv
    simp only [precinctLoopSt]
    rw [if_pos (Or.inl (by omega))]
    simp only [precinctLoopSt, runLevels_append, runLevels]
    simpa using hinv
  · cases h

/-- When the precinct extraction succeeds, every emitted run has equal x and
y size texts. -/
theorem jp2Precincts_psy (psx : List String) (runs : List PrecinctRun)
    (h : jp2Precincts psx = some runs) : ∀ r ∈ runs, r.psy = r.psx := by
  unfold jp2Precincts at h
  split at h
  · injection h with h
    subst h
    exact precinctLoopSt_psy psx _ _ _ _ (by simp)
  · cases h

/-- Every successful `to_blit` output is `mkBlit` at some resolution texts
and optional run list. -/
theorem to_blit_shape (p : JpylyzerProps) (b : BlitXml)
    (hb : to_blit p = some b) :
    ∃ rx ry rs, b = mkBlit p rx ry rs := by
  unfold to_blit at hb
  split at hb
  · exact absurd hb (by simp)
  · split at hb
    · split at hb
      · exact absurd hb (by simp)
      · exact ⟨_, _, _, (Option.some_inj.mp hb).symm⟩
    · exact ⟨_, _, _, (Option.some_inj.mp hb).symm⟩

/-- The run list in a successful `to_blit` output is the one computed by the
precinct extraction from the `precinctSizeX` texts. -/
theorem to_blit_runs (p : JpylyzerProps) (b : BlitXml)
    (runs : List PrecinctRun) (hb : to_blit p = some b)
    (hruns : b.precinctRuns = some runs) :
    jp2Precincts p.precinctSizeX = some runs := by
  unfold to_blit at hb
  split at hb
  · exact absurd hb (by simp)
  · split at hb
    · split at hb
      · exact absurd hb (by simp)
      · next runs2 h2 =>
        rw [← Option.some_inj.mp hb] at hruns
        simp only [mkBlit] at hruns
        rw [h2, hruns]
    · rw [← Option.some_inj.mp hb] at hruns
      simp only [mkBlit] at hruns
      cases hruns

/-- `to_blit` never reads the `precinctSizeY` texts. -/
theorem to_blit_ignores_psy (p : JpylyzerProps) (psy2 : List String) :
    to_blit { p with precinctSizeY := psy2 } = to_blit p := by
  cases p
  rfl

/-- A well-formed six-level descriptor with precincts enabled, matching the
spec's worked scenario: precinct sizes coarse-to-fine
`[128,128,128,64,64,32,32]`. -/
def basicProps : JpylyzerProps :=
  { width := "4000", height := "3000",
    captureRes := some ("300", "300"),
    displayRes := none,
    xResolution := none, yResolution := none,
    nC := "3", bPCDepth := "8",
    transformation := "5-3 reversible",
    codeBlockWidth := "64", codeBlockHeight := "64",
    layers := "1", order := "RPCL",
    levels := 6,
    xsiz := 4000, ysiz := 3000, xTsiz := 1024, yTsiz := 1024,
    precincts := "yes",
    precinctSizeX := ["128", "128", "128", "64", "64", "32", "32"],
    precinctSizeY := ["128", "128", "128", "64", "64", "32", "32"] }

/-- The document `to_blit` produces for `basicProps`. -/
def basicBlit : BlitXml :=
  { width := "4000", height := "3000",
    resX := "300", resY := "300",
    channels := "3", bitsPerChannel := "8",
    compressionType := "JPEG2000_Lossless",
    cbx := "64", cby := "64",
    layers := "1", progressionOrder := "RPCL",
    levels := 6,
    tileDwtLevel := "1,2,3,4,5,6",
    tileX := 1024, tileY := 1024,
    precinctRuns := some [⟨[1, 2], "32", "32"⟩, ⟨[3, 4], "64", "64"⟩,
      ⟨[5, 6], "128", "128"⟩] }

/-- `basicProps` with per-level y precinct sizes that differ from the x
sizes. -/
def asymProps : JpylyzerProps :=
  { basicProps with
    precinctSizeY := ["16", "16", "16", "16", "16", "16", "16"] }

/-- `basicProps` with a nominal 5000×5000 tile on the 4000×3000 image. -/
def bigTileProps : JpylyzerProps :=
  { basicProps with xTsiz := 5000, yTsiz := 5000 }

/-- The document `to_blit` produces for `bigTileProps`. -/
def bigTileBlit : BlitXml :=
  { basicBlit with tileX := 4000, tileY := 3000 }

/-- `basicProps` with five decomposition levels and the matching six-entry
precinct size lists. -/
def fiveLevelProps : JpylyzerProps :=
  { basicProps with
    levels := 5,
    precinctSizeX := ["128", "128", "64", "64", "32", "32"],
    precinctSizeY := ["128", "128", "64", "64", "32", "32"] }

/-- `basicProps` with no capture and no display resolution boxes, falling
back on the generic fractions X = 100/1 and Y = 999/3. -/
def fallbackProps : JpylyzerProps :=
  { basicProps with
    captureRes := none, displayRes := none,
    xResolution := some ⟨100, 1⟩, yResolution := some ⟨999, 3⟩ }

/-- `basicProps` with no capture and no display resolution boxes and both
generic fractions equal to 300/1. -/
def fallbackProps300 : JpylyzerProps :=
  { basicProps with
    captureRes := none, displayRes := none,
    xResolution := some ⟨300, 1⟩, yResolution := some ⟨300, 1⟩ }

/-- C1 (counterexample): a failure-marked probe record is NOT passed through
by the transform stage.  On the line `FAIL 3 id1<TAB>Error: boom` the
`GenerateBlit` mapper returns at line 196 and emits zero records — even with
a transform body that would succeed — instead of emitting the record
unchanged as the claim states. -/
theorem generateBlit_drops_fail_line :
    GenerateBlit.mapper (fun s => Except.ok ("id1", s))
      "FAIL 3 id1\tError: boom" = [] := by decide

/-- C1 (amended): every line starting with the failure prefix `FAIL ` is
dropped by the transform stage — zero records are emitted for it, whatever
the transform body would do, so failed identifiers are absent from the
transform stage's output. -/
theorem generateBlit_fail_lines_emit_nothing
    (tryBody : String → Except String (String × String)) (line : String)
    (h : "FAIL ".data.isPrefixOf line.data = true) :
    GenerateBlit.mapper tryBody line = [] := by
  by_cases hline : line = ""
  · simp [GenerateBlit.mapper, hline]
  · simp [GenerateBlit.mapper, hline, h]

/-- C1 (witness): the amended claim at a concrete failure-marked line. -/
theorem generateBlit_fail_lines_emit_nothing_witness :
    GenerateBlit.mapper (fun s => Except.ok ("idZ", s))
      "FAIL 1 idZ\tpayload" = [] :=
  generateBlit_fail_lines_emit_nothing _ _ (by decide)

/-- C2: on an identifier whose fetch-and-analyse fails on attempt 1 and
succeeds on attempt 2, the probe stage emits the successful XML under the
key `FAIL 1 id1`, not under the plain identifier: `out_key` is rewritten on
the failed attempt (tasks.py line 141) and never restored on the later
success, contradicting the claim that a retry recovery carries no failure
marking. -/
theorem probe_retry_success_keeps_fail_key :
    RunJpylyzer.mapper
        (fun n => if n = 0 then AttemptResult.err "boom"
                  else AttemptResult.ok "<x/>") "id1"
      = [("FAIL 1 id1", "<x/>")] := by decide

/-- C3 (counterexample): a well-formed descriptor with the precinct flag
set, 5 decomposition levels and the matching 6 per-level precinct size
entries makes `to_blit` raise `IndexError` on the hard-coded `Psx[6]`
lookup, so no `PrecinctRun` elements are emitted at all and their level tags
cannot cover `{1..5}` as the claim states. -/
theorem to_blit_five_levels_fails : to_blit fiveLevelProps = none := by
  decide

/-- C3 (amended): whenever the transform succeeds on a descriptor with
`levelCount + 1` per-level precinct size entries and emits a run list (which
requires `levelCount ≥ 6`, since the scan starts from the hard-coded index
6), the concatenated level tags of the emitted runs are exactly
`1, 2, …, levelCount` in ascending order — every level exactly once, no
gaps, no overlaps, no duplicates. -/
theorem precinct_runs_partition_levels (p : JpylyzerProps) (b : BlitXml)
    (runs : List PrecinctRun) (hb : to_blit p = some b)
    (hruns : b.precinctRuns = some runs)
    (hlen : p.precinctSizeX.length = p.levels + 1) :
    runLevels runs = List.range' 1 p.levels := by
  have h := jp2Precincts_levels _ _ (to_blit_runs p b runs hb hruns)
  rw [hlen] at h
  simpa using h

/-- C3 (witness): the amended claim at the six-level scenario input. -/
theorem precinct_runs_partition_levels_witness :
    runLevels [⟨[1, 2], "32", "32"⟩, ⟨[3, 4], "64", "64"⟩,
        ⟨[5, 6], "128", "128"⟩]
      = List.range' 1 basicProps.levels :=
  precinct_runs_partition_levels basicProps basicBlit _ (by decide)
    (by decide) (by decide)

/-- C4: when every attempt fails, the probe stage performs exactly 3
attempts and emits exactly one record, keyed `FAIL 3 <identifier>`, whose
payload is the last error's description; and the output is unchanged under
any variation of what a 4th or later attempt would do, so no 4th attempt is
ever consulted. -/
theorem probe_retry_bound (attempt attempt2 : Nat → AttemptResult)
    (es : Nat → String) (line : String)
    (hline : ¬(line = "" ∨ line = "ContentFileUID"))
    (hfail : ∀ n, n < 3 → attempt n = AttemptResult.err (es n))
    (hagree : ∀ n, n < 3 → attempt2 n = attempt n) :
    RunJpylyzer.mapper attempt line
        = [("FAIL 3 " ++ line, "Error: " ++ es 2)]
      ∧ RunJpylyzer.mapper attempt2 line = RunJpylyzer.mapper attempt line := by
  have h0 := hfail 0 (by omega)
  have h1 := hfail 1 (by omega)
  have h2 := hfail 2 (by omega)
  have g0 := hagree 0 (by omega)
  have g1 := hagree 1 (by omega)
  have g2 := hagree 2 (by omega)
  have key : ("FAIL " ++ toString (3 : Nat) ++ " " ++ line)
      = "FAIL 3 " ++ line := by
    obtain ⟨l⟩ := line
    rfl
  have run : probeLoop attempt line 3 0 (line, "")
      = ("FAIL " ++ toString (3 : Nat) ++ " " ++ line, "Error: " ++ es 2) := by
    simp only [show (3 : Nat) = 2 + 1 from rfl, probeLoop_succ, h0, h1, h2]
    rfl
  have run2 : probeLoop attempt2 line 3 0 (line, "")
      = probeLoop attempt line 3 0 (line, "") := by
    simp only [show (3 : Nat) = 2 + 1 from rfl, probeLoop_succ, g0, g1, g2,
      h0, h1, h2]
    rfl
  constructor
  · simp only [RunJpylyzer.mapper, if_neg hline, run, key]
  · simp only [RunJpylyzer.mapper, if_neg hline, run2]

/-- C4 (witness): the retry bound at a concrete always-failing attempt
function. -/
theorem probe_retry_bound_witness :
    RunJpylyzer.mapper (fun n => AttemptResult.err (toString n)) "id4"
        = [("FAIL 3 " ++ "id4", "Error: " ++ toString 2)]
      ∧ RunJpylyzer.mapper (fun n => AttemptResult.err (toString n)) "id4"
        = RunJpylyzer.mapper (fun n => AttemptResult.err (toString n)) "id4" :=
  probe_retry_bound _ _ _ _ (by decide) (fun _ _ => rfl) (fun _ _ => rfl)

/-- C5: on the six-level descriptor with coarse-to-fine precinct sizes
`[128,128,128,64,64,32,32]` the transform emits exactly the runs
levels `{1,2}` at size 32, levels `{3,4}` at size 64 and levels `{5,6}` at
size 128, in that order, their `dwt_level` attributes reading `1,2`, `3,4`
and `5,6`. -/
theorem precinct_runs_six_level_scenario :
    (to_blit basicProps).map BlitXml.precinctRuns
        = some (some [⟨[1, 2], "32", "32"⟩, ⟨[3, 4], "64", "64"⟩,
          ⟨[5, 6], "128", "128"⟩])
      ∧ ((to_blit basicProps).map fun b =>
            b.precinctRuns.map fun rs => rs.map PrecinctRun.dwt_level)
        = some (some ["1,2", "3,4", "5,6"]) := by
  constructor
  · decide
  · decide

/-- C6: on every descriptor the transform succeeds on, the emitted tile
width is `min(nominal tile width, image width)` and the emitted tile height
is `min(nominal tile height, image height)` — so neither exceeds the
codestream image dimensions — and the tile element's `dwt_level` attribute
lists the full level range `1..levelCount`. -/
theorem tile_dimensions_clamped (p : JpylyzerProps) (b : BlitXml)
    (hb : to_blit p = some b) :
    b.tileX = min p.xTsiz p.xsiz ∧ b.tileY = min p.yTsiz p.ysiz
      ∧ b.tileX ≤ p.xsiz ∧ b.tileY ≤ p.ysiz
      ∧ b.tileDwtLevel = String.intercalate ","
          ((List.range' 1 p.levels).map fun n => toString n) := by
  obtain ⟨rx, ry, rs, rfl⟩ := to_blit_shape p b hb
  have hx : (if p.xTsiz > p.xsiz then p.xsiz else p.xTsiz)
      = min p.xTsiz p.xsiz := by
    rcases le_or_lt p.xTsiz p.xsiz with h | h
    · rw [if_neg (not_lt.mpr h), min_eq_left h]
    · rw [if_pos h, min_eq_right h.le]
  have hy : (if p.yTsiz > p.ysiz then p.ysiz else p.yTsiz)
      = min p.yTsiz p.ysiz := by
    rcases le_or_lt p.yTsiz p.ysiz with h | h
    · rw [if_neg (not_lt.mpr h), min_eq_left h]
    · rw [if_pos h, min_eq_right h.le]
  refine ⟨hx, hy, ?_, ?_, rfl⟩
  · rw [show (mkBlit p rx ry rs).tileX
        = (if p.xTsiz > p.xsiz then p.xsiz else p.xTsiz) from rfl, hx]
    exact min_le_right _ _
  · rw [show (mkBlit p rx ry rs).tileY
        = (if p.yTsiz > p.ysiz then p.ysiz else p.yTsiz) from rfl, hy]
    exact min_le_right _ _

/-- C6 (witness): a nominal 5000×5000 tile on a 4000×3000 image yields an
effective 4000×3000 tile tagged `1,2,3,4,5,6`. -/
theorem tile_dimensions_clamped_witness :
    bigTileBlit.tileX = min bigTileProps.xTsiz bigTileProps.xsiz
      ∧ bigTileBlit.tileY = min bigTileProps.yTsiz bigTileProps.ysiz
      ∧ bigTileBlit.tileX ≤ bigTileProps.xsiz
      ∧ bigTileBlit.tileY ≤ bigTileProps.ysiz
      ∧ bigTileBlit.tileDwtLevel = String.intercalate ","
          ((List.range' 1 bigTileProps.levels).map fun n => toString n) :=
  tile_dimensions_clamped bigTileProps bigTileBlit (by decide)

/-- C7: with no capture and no display resolution present, the fallback of
genblit.py lines 81-84 does NOT derive each axis from its own fraction: for
X = 100/1 and Y = 999/3 it emits `blit:x` = 999 (Y numerator over the X
denominator, because the Y denominator is unpacked into the misspelled
`demon`) and `blit:y` = 100 (the X fraction), where the claim requires
x = 100 and y = 333.  When both fractions are 300/1 the emitted values are
300, coinciding with the claim's scenario. -/
theorem resolution_fallback_swaps_axes :
    ((to_blit fallbackProps).map fun b => (b.resX, b.resY))
        = some ("999", "100")
      ∧ ((to_blit fallbackProps300).map fun b => (b.resX, b.resY))
        = some ("300", "300") := by
  constructor
  · decide
  · decide

/-- C8: the probe stage emits exactly one record per input line, except for
the empty line and the header sentinel `ContentFileUID`, which emit zero
records. -/
theorem probe_emits_one_record (attempt : Nat → AttemptResult)
    (line : String) :
    (RunJpylyzer.mapper attempt line).length
      = if line = "" ∨ line = "ContentFileUID" then 0 else 1 := by
  unfold RunJpylyzer.mapper
  split
  · rfl
  · rfl

/-- C9: whenever the transform body raises on a non-blank, non-failure input
line, the transform stage emits exactly one record whose key starts with
`FAIL ` and whose payload is the raw input line verbatim, and returns
normally rather than propagating the error. -/
theorem generateBlit_error_emits_fail_record
    (tryBody : String → Except String (String × String)) (line e : String)
    (hne : line ≠ "")
    (hnf : "FAIL ".data.isPrefixOf line.data = false)
    (herr : tryBody line = Except.error e) :
    GenerateBlit.mapper tryBody line = [("FAIL with: " ++ e, line)]
      ∧ "FAIL ".data.isPrefixOf ("FAIL with: " ++ e).data = true := by
  constructor
  · simp [GenerateBlit.mapper, hne, hnf, herr]
  · obtain ⟨le⟩ := e
    rfl

/-- C9 (witness): a concrete erroring transform body. -/
theorem generateBlit_error_emits_fail_record_witness :
    GenerateBlit.mapper (fun _ => Except.error "bad descriptor") "id9\tjunk"
        = [("FAIL with: " ++ "bad descriptor", "id9\tjunk")]
      ∧ "FAIL ".data.isPrefixOf ("FAIL with: " ++ "bad descriptor").data
        = true :=
  generateBlit_error_emits_fail_record _ _ _ (by decide) (by decide) rfl

/-- C10: every emitted precinct run carries the same text for its y size as
for its x size (both taken from the `precinctSizeX` scan), and replacing the
`precinctSizeY` texts by anything does not change the output document at
all. -/
theorem precinct_y_equals_x (p : JpylyzerProps) (psy2 : List String)
    (b : BlitXml) (runs : List PrecinctRun) (r : PrecinctRun)
    (hb : to_blit p = some b) (hruns : b.precinctRuns = some runs)
    (hr : r ∈ runs) :
    r.psy = r.psx
      ∧ to_blit { p with precinctSizeY := psy2 } = some b := by
  constructor
  · exact jp2Precincts_psy _ _ (to_blit_runs p b runs hb hruns) r hr
  · rw [to_blit_ignores_psy, hb]

/-- C10 (witness): the descriptor with y precinct sizes all 16 while the x
sizes are `[128,128,128,64,64,32,32]` still emits runs with y = x, and its
output is unchanged under replacing the y sizes by all 8. -/
theorem precinct_y_equals_x_witness :
    (⟨[1, 2], "32", "32"⟩ : PrecinctRun).psy
        = (⟨[1, 2], "32", "32"⟩ : PrecinctRun).psx
      ∧ to_blit { asymProps with
            precinctSizeY := ["8", "8", "8", "8", "8", "8", "8"] }
        = some basicBlit :=
  precinct_y_equals_x asymProps ["8", "8", "8", "8", "8", "8", "8"] basicBlit
    [⟨[1, 2], "32", "32"⟩, ⟨[3, 4], "64", "64"⟩, ⟨[5, 6], "128", "128"⟩]
    ⟨[1, 2], "32", "32"⟩ (by decide) (by decide) (by decide)
